import Mathlib

/-!
Verification of the WireGuard enterprise manager's deployment orchestration
and status aggregation engine, as a shallow embedding of the Python sources
(`wireguard_enterprise.py`, `monitoring.py`, `enterprise_bridge.py`,
`container_integration.py`, `cloud_integration.py`, `web_interface.py`).

Machine strings are Lean `String`s processed through explicit character-list
functions (so everything is kernel-computable); Python exceptions are
modelled with `Option`/`Except`; Python's `int(...)`/`float(...)` literal
parsing is modelled by executable recognizers over the character list.
-/

namespace WGEnt

/-! ### Python-style string primitives -/

/-- ASCII decimal digit test (Python `str.isdigit` restricted to ASCII,
which is all the dump fields can contain). -/
def isAsciiDigit (c : Char) : Bool :=
  decide ('0' ≤ c) && decide (c ≤ '9')

/-- The whitespace characters stripped by Python's `str.strip()`. -/
def pyIsSpace (c : Char) : Bool :=
  c = ' ' || c = '\t' || c = '\n' || c = '\x0d' || c = '\x0c' || c = '\x0b'

/-- Python `str.strip()` on a character list. -/
def pyStripChars (l : List Char) : List Char :=
  ((l.dropWhile pyIsSpace).reverse.dropWhile pyIsSpace).reverse

/-- Python `str.strip()`. -/
def pyStrip (s : String) : String :=
  ⟨pyStripChars s.data⟩

/-- Split a character list at every occurrence of the separator `c`
(Python's single-character `str.split(sep)`: no collapsing of empty
pieces, the empty input yields one empty piece). -/
def splitCharAux (c : Char) : List Char → List Char → List (List Char)
  | [], acc => [acc.reverse]
  | x :: xs, acc =>
    if x = c then acc.reverse :: splitCharAux c xs []
    else splitCharAux c xs (x :: acc)

/-- Python `s.split(c)` for a one-character separator. -/
def pySplit (c : Char) (s : String) : List String :=
  (splitCharAux c s.data []).map fun l => ⟨l⟩

/-- Continue a digit run: consumes `(digit | underscore digit)*`, returning
the unconsumed remainder (Python numeric literals allow single underscores
between digits). -/
def digitRunCont : List Char → List Char
  | '_' :: c :: rest =>
    if isAsciiDigit c then digitRunCont rest else '_' :: c :: rest
  | c :: rest =>
    if isAsciiDigit c then digitRunCont rest else c :: rest
  | [] => []

/-- Consume a nonempty digit run (with optional internal underscores);
`none` when the input does not start with a digit. -/
def digitRun : List Char → Option (List Char)
  | c :: rest => if isAsciiDigit c then some (digitRunCont rest) else none
  | [] => none

/-- Value of a digit run (underscores skipped), accumulator style. -/
def digitsToNat : List Char → Nat → Nat
  | [], acc => acc
  | '_' :: rest, acc => digitsToNat rest acc
  | c :: rest, acc => digitsToNat rest (acc * 10 + (c.toNat - 48))

/-- Does Python's `int(s)` succeed on `s`?  `int` strips whitespace, then
accepts an optional sign followed by a digit run. -/
def pyIntOk (s : String) : Bool :=
  let l := pyStripChars s.data
  let body := match l with
    | '+' :: rest => rest
    | '-' :: rest => rest
    | rest => rest
  match digitRun body with
  | some [] => true
  | _ => false

/-- The value Python's `int(s)` returns when it succeeds. -/
def pyIntVal (s : String) : Int :=
  let l := pyStripChars s.data
  match l with
  | '+' :: rest => (digitsToNat rest 0 : Int)
  | '-' :: rest => -(digitsToNat rest 0 : Int)
  | rest => (digitsToNat rest 0 : Int)

/-- Optional exponent part of a Python float literal: empty, or
`e`/`E`, optional sign, digit run consuming the whole remainder. -/
def pyFloatExpOk : List Char → Bool
  | [] => true
  | c :: rest =>
    if c = 'e' || c = 'E' then
      let body := match rest with
        | '+' :: r => r
        | '-' :: r => r
        | r => r
      match digitRun body with
      | some [] => true
      | _ => false
    else false

/-- Numeric (non-named) part of a Python float literal, after the sign:
`digits [. digits*] [exp]` or `. digits [exp]`. -/
def pyFloatNumericOk (l : List Char) : Bool :=
  match digitRun l with
  | some rest =>
    match rest with
    | '.' :: r => pyFloatExpOk (digitRunCont r)
    | r => pyFloatExpOk r
  | none =>
    match l with
    | '.' :: r =>
      match digitRun r with
      | some rest => pyFloatExpOk rest
      | none => false
    | _ => false

/-- Does Python's `float(s)` succeed on `s`?  Strips whitespace, optional
sign, then either a case-insensitive named value (`inf`, `infinity`,
`nan`) or a numeric literal. -/
def pyFloatOk (s : String) : Bool :=
  let l := pyStripChars s.data
  let body := match l with
    | '+' :: rest => rest
    | '-' :: rest => rest
    | rest => rest
  let lower := body.map Char.toLower
  if lower = ['i', 'n', 'f'] || lower = ['i', 'n', 'f', 'i', 'n', 'i', 't', 'y']
      || lower = ['n', 'a', 'n'] then
    true
  else
    pyFloatNumericOk body

/-! ### Peer-status parsing: `WireGuardBridge.get_server_status`
(`enterprise_bridge.py`, lines 35-57)

The bridge splits the dump output on newlines, splits each line on tabs,
and for every line with at least 8 fields appends one peer record built
from fields 1,3,4,5,6,7 (0-based) — kept as the raw strings, with no
numeric conversion. -/

/-- One entry of `status["peers"]` as built by `get_server_status`. -/
structure PeerEntry where
  public_key : String
  endpoint : String
  allowed_ips : String
  latest_handshake : String
  transfer_rx : String
  transfer_tx : String
deriving DecidableEq, Repr

/-- The `len(fields) >= 8` test both parsers apply to a dump line. -/
def lineHasPeerFields (line : String) : Bool :=
  8 ≤ (pySplit '\t' line).length

/-- The peer record built from one 8+-field dump line (fields 1, 3, 4, 5,
6, 7 of the 0-based tab split, kept as raw strings). -/
def peerOfLine (line : String) : PeerEntry :=
  let fields := pySplit '\t' line
  { public_key := fields.getD 1 ""
    endpoint := fields.getD 3 ""
    allowed_ips := fields.getD 4 ""
    latest_handshake := fields.getD 5 ""
    transfer_rx := fields.getD 6 ""
    transfer_tx := fields.getD 7 "" }

/-- The peer list `get_server_status` builds from the already-split lines
of `wg show all dump` output. -/
def bridgeParsePeers (lines : List String) : List PeerEntry :=
  lines.filterMap fun line =>
    if lineHasPeerFields line then some (peerOfLine line) else none

/-- `get_server_status` on the raw dump text: `strip()` then split on
newlines, then parse peers. -/
def get_server_status_peers (dump : String) : List PeerEntry :=
  bridgeParsePeers (pySplit '\n' (pyStrip dump))

/-! ### Telemetry collection: `WireGuardMonitor.collect_metrics`
(`monitoring.py`, lines 40-74)

For each nonempty line with at least 8 tab-separated fields the loop body
runs `int(parts[5])`, `int(parts[6])` and — when `parts[4] != '0'` —
`float(parts[4])`; any of these raising aborts the whole cycle through the
broad `except`, leaving the Prometheus counters untouched.  Only after the
loop finishes are the rx/tx totals added to the `BYTES_TRANSFERRED`
counters; `Counter.inc` raises on a negative amount (so a negative rx
total leaves both counters unchanged, and a negative tx total leaves the
tx counter unchanged after the rx counter was already incremented). -/

/-- The two `BYTES_TRANSFERRED` counter values (process-wide state). -/
structure Counters where
  rx : Int
  tx : Int
deriving DecidableEq, Repr

/-- Do all numeric operations of the loop body succeed on this 8+-field
line?  The body runs `int(parts[5])`, `int(parts[6])` and — only when
`parts[4] != '0'` — `float(parts[4])`. -/
def lineParsesOk (line : String) : Bool :=
  let parts := pySplit '\t' line
  pyIntOk (parts.getD 5 "") && pyIntOk (parts.getD 6 "")
    && (parts.getD 4 "" = "0" || pyFloatOk (parts.getD 4 ""))

/-- Does processing this dump line raise inside the collection loop? -/
def lineRaises (line : String) : Bool :=
  lineHasPeerFields line && !lineParsesOk line

/-- Amount `int(parts[5])` added to `total_rx` for one line. -/
def lineRx (line : String) : Int :=
  pyIntVal ((pySplit '\t' line).getD 5 "")

/-- Amount `int(parts[6])` added to `total_tx` for one line. -/
def lineTx (line : String) : Int :=
  pyIntVal ((pySplit '\t' line).getD 6 "")

/-- The loop of `collect_metrics`: accumulate `total_rx`/`total_tx` over
the lines; `none` models an exception escaping to the broad `except`. -/
def collectTotals : List String → Int → Int → Option (Int × Int)
  | [], rx, tx => some (rx, tx)
  | line :: rest, rx, tx =>
    if line = "" then collectTotals rest rx tx
    else if lineHasPeerFields line then
      if lineParsesOk line then
        collectTotals rest (rx + lineRx line) (tx + lineTx line)
      else none
    else collectTotals rest rx tx

/-- One `collect_metrics` cycle acting on the `BYTES_TRANSFERRED`
counters: parse `result.stdout.strip().split('\n')`; an exception
anywhere leaves the counters unchanged; otherwise increment rx then tx,
each increment raising (and aborting the rest of the cycle) on a negative
amount. -/
def collect_metrics (dump : String) (c : Counters) : Counters :=
  match collectTotals (pySplit '\n' (pyStrip dump)) 0 0 with
  | none => c
  | some (trx, ttx) =>
    if trx < 0 then c
    else if ttx < 0 then { c with rx := c.rx + trx }
    else { rx := c.rx + trx, tx := c.tx + ttx }

/-- A sequence of telemetry cycles within one process lifetime. -/
def runCycles (dumps : List String) (c : Counters) : Counters :=
  dumps.foldl (fun s d => collect_metrics d s) c

/-- Componentwise order on the counter pair. -/
def countersLe (a b : Counters) : Prop :=
  a.rx ≤ b.rx ∧ a.tx ≤ b.tx

/-- The spec's example dump line. -/
def exampleDumpLine : String :=
  "wg0\tABC123\t(none)\t10.0.0.5:51820\t10.0.0.2/32\t1699999999\t1024\t2048"

/-! ### Deployment orchestration: `WireGuardEnterprise.deploy_infrastructure`
(`wireguard_enterprise.py`, lines 78-124)

The method loads the YAML spec (load failure → `{"status": "error"}`),
then iterates the `cloud` list and the `containers` list in order.  Each
recognized discriminator calls a backend create method; those methods
(`deploy_aws`/`deploy_gcp`/`deploy_azure`,
`create_docker_container`/`create_k8s_deployment`) wrap their whole body
in `try/except` and always return a per-request envelope dict, so they
are modelled as total functions.  An unrecognized discriminator leaves
the Python local `result` untouched: if it is still unbound the `append`
raises `UnboundLocalError` (caught by the outer broad `except`, giving
the error envelope); otherwise the previous iteration's envelope is
appended again. -/

/-- A per-request result envelope returned by a backend create call. -/
inductive Entry
  | success
  | failure
deriving DecidableEq, Repr

/-- One entry of the spec's `cloud` list (only the `provider` key is read
by the orchestrator itself; the remaining keys are consumed inside the
backend create call, which is abstracted by `Backends`). -/
structure CloudReq where
  provider : String
deriving DecidableEq, Repr

/-- One entry of the spec's `containers` list: the orchestrator reads
`platform`, `config_path`, `name` and `.get('namespace', 'default')`. -/
structure ContainerReq where
  platform : String
  config_path : String
  name : String
  ns : Option String
deriving DecidableEq, Repr

/-- The backend create calls, as total envelope-returning functions. -/
structure Backends where
  deployAws : CloudReq → Entry
  deployGcp : CloudReq → Entry
  deployAzure : CloudReq → Entry
  createDocker : String → String → Entry
  createK8s : String → String → String → Entry

/-- The Python locals of the deployment loops: the (possibly unbound)
`result` variable and the two per-request result lists. -/
structure LoopState where
  result : Option Entry
  cloud : List Entry
  container : List Entry
deriving Repr

/-- The `if provider == ...` chain: the value of `result` after one cloud
iteration's dispatch, given its previous value. -/
def cloudDispatch (b : Backends) (req : CloudReq) (prev : Option Entry) :
    Option Entry :=
  if req.provider = "aws" then some (b.deployAws req)
  else if req.provider = "gcp" then some (b.deployGcp req)
  else if req.provider = "azure" then some (b.deployAzure req)
  else prev

/-- The envelope a recognized cloud request produces (only meaningful
when `provider` is one of aws/gcp/azure). -/
def cloudEntry (b : Backends) (req : CloudReq) : Entry :=
  if req.provider = "aws" then b.deployAws req
  else if req.provider = "gcp" then b.deployGcp req
  else b.deployAzure req

/-- The `if platform == ...` chain of the container loop. -/
def containerDispatch (b : Backends) (req : ContainerReq)
    (prev : Option Entry) : Option Entry :=
  if req.platform = "docker" then
    some (b.createDocker req.config_path req.name)
  else if req.platform = "kubernetes" then
    some (b.createK8s req.config_path req.name (req.ns.getD "default"))
  else prev

/-- The envelope a recognized container request produces. -/
def containerEntry (b : Backends) (req : ContainerReq) : Entry :=
  if req.platform = "docker" then b.createDocker req.config_path req.name
  else b.createK8s req.config_path req.name (req.ns.getD "default")

/-- One cloud-loop iteration; `none` models `UnboundLocalError` escaping
to the broad `except`. -/
def stepCloud (b : Backends) (st : LoopState) (req : CloudReq) :
    Option LoopState :=
  match cloudDispatch b req st.result with
  | none => none
  | some e => some ⟨some e, st.cloud ++ [e], st.container⟩

/-- One container-loop iteration. -/
def stepContainer (b : Backends) (st : LoopState) (req : ContainerReq) :
    Option LoopState :=
  match containerDispatch b req st.result with
  | none => none
  | some e => some ⟨some e, st.cloud, st.container ++ [e]⟩

/-- Run a loop over the request list, stopping at the first exception. -/
def foldReqs {α : Type} (step : LoopState → α → Option LoopState) :
    LoopState → List α → Option LoopState
  | st, [] => some st
  | st, r :: rest =>
    match step st r with
    | none => none
    | some st' => foldReqs step st' rest

/-- The parsed deployment spec: ordered `cloud` and `containers` lists
(an absent key behaves like an empty list). -/
structure DeploymentSpec where
  cloud : List CloudReq
  containers : List ContainerReq
deriving DecidableEq, Repr

/-- A `deploy_infrastructure` return value: the success-shaped dict with
its two per-request lists, or the `{"status": "error"}` envelope. -/
inductive DeployOutcome
  | ok (cloud container : List Entry)
  | err
deriving DecidableEq, Repr

/-- `deploy_infrastructure`: spec-load failure or an exception inside the
loops gives the error envelope; otherwise the success envelope carries
the two per-request lists. -/
def deploy_infrastructure (b : Backends) (input : Except String DeploymentSpec) :
    DeployOutcome :=
  match input with
  | .error _ => .err
  | .ok spec =>
    match foldReqs (stepCloud b) ⟨none, [], []⟩ spec.cloud with
    | none => .err
    | some st1 =>
      match foldReqs (stepContainer b) st1 spec.containers with
      | none => .err
      | some st2 => .ok st2.cloud st2.container

/-- Number of `Failure` entries in a result list. -/
def failures (l : List Entry) : Nat :=
  l.countP fun e => e = Entry.failure

/-- Number of `Success` entries in a result list. -/
def successes (l : List Entry) : Nat :=
  l.countP fun e => e = Entry.success

/-! ### System status: `WireGuardEnterprise.get_system_status`
(`wireguard_enterprise.py`, lines 126-170)

The snapshot-building steps are all total: `list_instances` and
`list_containers` catch internally and return lists, and the
`os.popen` output is read as text and searched for `'active'`.  The
metrics block then reads the module-level globals `ACTIVE_CONNECTIONS`,
`BYTES_TRANSFERRED`, `CPU_USAGE`, `MEMORY_USAGE` — but
`wireguard_enterprise.py` imports none of them (it imports only
`WireGuardMonitor` from `monitoring`), so the first read raises
`NameError`, which the broad `except` turns into the error envelope. -/

/-- The global names bound at module level in `wireguard_enterprise.py`
(its imports plus its own top-level definitions). -/
def enterpriseModuleNames : List String :=
  ["os", "sys", "logging", "argparse", "threading", "signal", "Dict", "List",
   "json", "yaml", "web_app", "WireGuardMonitor", "WireGuardContainer",
   "WireGuardCloud", "WireGuardEnterprise", "main"]

/-- Module-level name resolution inside `wireguard_enterprise.py`. -/
def resolvesInEnterprise (n : String) : Bool :=
  enterpriseModuleNames.contains n

/-- Python `haystack.count(needle)` for a nonempty needle:
non-overlapping occurrence count. -/
def isPrefixList : List Char → List Char → Bool
  | [], _ => true
  | _ :: _, [] => false
  | p :: ps, c :: cs => p = c && isPrefixList ps cs

/-- Scan of the haystack; `skip` is the number of characters still
covered by the previous match. -/
def countSubstrAux (pat : List Char) : List Char → Nat → Nat
  | [], _ => 0
  | c :: rest, skip =>
    if 0 < skip then countSubstrAux pat rest (skip - 1)
    else if isPrefixList pat (c :: rest) then
      1 + countSubstrAux pat rest (pat.length - 1)
    else countSubstrAux pat rest 0

/-- Python `s.count(pat)` (nonempty `pat`). -/
def pyCount (pat s : String) : Nat :=
  countSubstrAux pat.data s.data 0

/-- The data `get_system_status` has gathered before the metrics block. -/
structure StatusSnapshot where
  cloud_aws : List String
  cloud_gcp : List String
  cloud_azure : List String
  containers : List String
  active_tunnels : Nat
deriving DecidableEq, Repr

/-- A `get_system_status` return value. -/
inductive StatusResult
  | ok (s : StatusSnapshot)
  | errorEnvelope
deriving DecidableEq, Repr

/-- `get_system_status`, parametrized by what the (total) backend listing
calls and the tunnel-engine shell-out return. -/
def get_system_status (awsList gcpList azureList containerList : List String)
    (wireguardStatus : String) : StatusResult :=
  let snapshot : StatusSnapshot :=
    { cloud_aws := awsList, cloud_gcp := gcpList, cloud_azure := azureList,
      containers := containerList,
      active_tunnels := pyCount "active" wireguardStatus }
  if resolvesInEnterprise "ACTIVE_CONNECTIONS"
      && resolvesInEnterprise "BYTES_TRANSFERRED"
      && resolvesInEnterprise "CPU_USAGE"
      && resolvesInEnterprise "MEMORY_USAGE" then
    .ok snapshot
  else
    .errorEnvelope

/-! ### CLI dispatch: `WireGuardEnterprise.handle_cli`
(`wireguard_enterprise.py`, lines 172-200)

`argparse` restricts the command to start/stop/status/deploy.  The
`status` branch prints the `get_system_status` return and returns 0
unconditionally; the `deploy` branch returns 0 iff the returned
envelope's `status` is `"success"` (and 1 when `--config` is missing);
`start`/`stop` return 0 when the boolean service call returns `True` and
fall through to the final `return 1` otherwise. -/

/-- The `result['status']` string of a deployment outcome. -/
def outcomeStatus : DeployOutcome → String
  | .ok _ _ => "success"
  | .err => "error"

/-- `handle_cli`, parametrized by the parsed arguments and by what the
called operations return.  The `statusResult` argument is only printed by
the `status` branch, never inspected. -/
def handle_cli (command : String) (configArg : Option String)
    (startOk stopOk : Bool) (_statusResult : StatusResult)
    (deployOutcome : DeployOutcome) : Nat :=
  if command = "start" then (if startOk then 0 else 1)
  else if command = "stop" then (if stopOk then 0 else 1)
  else if command = "status" then 0
  else if command = "deploy" then
    match configArg with
    | none => 1
    | some _ => if outcomeStatus deployOutcome = "success" then 0 else 1
  else 1

/-! ### Readiness polling: the create-and-wait loops
(`container_integration.py`, lines 38-89 and 91-223)

`create_docker_container` runs `container.reload()` up to 30 times (one
per `for` iteration, breaking on `status == 'running'`), then fails with
`RuntimeError` if the last observed status is still not `running`.
`create_k8s_deployment` reads the deployment status up to 60 times,
breaking on `ready_replicas == 1` — and then returns the success envelope
whether or not the loop ever observed readiness (there is no post-loop
check).  Earlier steps of each create (missing config file, the SDK
create call, namespace/ConfigMap/deployment creation) are modelled as
boolean parameters saying whether they raised. -/

/-- The shared polling loop shape: `k` attempts already made, `fuel`
iterations remaining; returns the total number of times the polled
condition was checked. -/
def pollFrom (ready : Nat → Bool) : Nat → Nat → Nat
  | k, 0 => k
  | k, fuel + 1 => if ready k then k + 1 else pollFrom ready (k + 1) fuel

/-- The envelope-level outcome of a create call. -/
inductive CreateStatus
  | success
  | error
deriving DecidableEq, Repr

/-- `create_docker_container`: returns the envelope status and the number
of `reload()` status checks performed.  `statusAt k` is the container
status observed by the k-th (0-based) reload.  (The returned dict
duplicates the `"status"` key, so the non-error envelope actually carries
`container.status`; it is still the non-error shape, modelled as
success.) -/
def create_docker_container (configExists : Bool) (runRaises : Bool)
    (statusAt : Nat → String) : CreateStatus × Nat :=
  if !configExists then (.error, 0)
  else if runRaises then (.error, 0)
  else
    let n := pollFrom (fun k => statusAt k = "running") 0 30
    if statusAt (n - 1) = "running" then (.success, n) else (.error, n)

/-- `create_k8s_deployment`: returns the envelope status and the number
of deployment-status reads performed.  `readyAt k` is whether the k-th
read observed `ready_replicas == 1`. -/
def create_k8s_deployment (k8sAvailable : Bool) (configExists : Bool)
    (setupRaises : Bool) (readyAt : Nat → Bool) : CreateStatus × Nat :=
  if !k8sAvailable then (.error, 0)
  else if !configExists then (.error, 0)
  else if setupRaises then (.error, 0)
  else (.success, pollFrom readyAt 0 60)

/-! ### Lifecycle side effects: auxiliary resources
(`cloud_integration.py` lines 48-94 and 275-303,
`container_integration.py` lines 91-223 and 286-334)

`deploy_aws` creates a security group, opens UDP 51820 on it, and runs
the instance; `terminate_instance('aws', id)` only calls
`terminate_instances`.  `create_k8s_deployment` creates the namespace,
the `<name>-config` ConfigMap and the deployment;
`remove_container(id, 'kubernetes')` deletes the deployment and the
`<deployment>-config` ConfigMap.  The backend API calls each create or
terminate path issues (on its success path) are modelled as effect
lists. -/

/-- Cloud-provider API calls issued by create/terminate paths. -/
inductive CloudEffect
  | createSecurityGroup (groupName : String)
  | authorizeUdpIngress (port : Nat)
  | runInstances (name : String)
  | terminateInstances (instanceId : String)
  | gcpDeleteInstance (instanceId : String)
  | azureDeleteVM (vmName : String)
  | deleteSecurityGroup (groupName : String)
deriving DecidableEq, Repr

/-- API calls of `deploy_aws`'s success path (lines 50-90). -/
def deploy_aws_effects (name : String) : List CloudEffect :=
  [CloudEffect.createSecurityGroup ("wireguard-" ++ name),
   CloudEffect.authorizeUdpIngress 51820,
   CloudEffect.runInstances ("wireguard-" ++ name)]

/-- API calls of `terminate_instance` (lines 275-303); an unrecognized
provider issues no call (and still returns success). -/
def terminate_instance_effects (provider instanceId : String) :
    List CloudEffect :=
  if provider = "aws" then [CloudEffect.terminateInstances instanceId]
  else if provider = "gcp" then [CloudEffect.gcpDeleteInstance instanceId]
  else if provider = "azure" then [CloudEffect.azureDeleteVM instanceId]
  else []

/-- Is this effect a security-group creation? -/
def isSecurityGroupCreate : CloudEffect → Bool
  | .createSecurityGroup _ => true
  | _ => false

/-- Is this effect a security-group deletion? -/
def isSecurityGroupRelease : CloudEffect → Bool
  | .deleteSecurityGroup _ => true
  | _ => false

/-- Container/orchestration API calls issued by create/remove paths. -/
inductive ContainerEffect
  | dockerRun (name : String)
  | dockerStop (id : String)
  | dockerRemove (id : String)
  | k8sCreateNamespace (nsName : String)
  | k8sCreateConfigMap (nsName mapName : String)
  | k8sCreateDeployment (nsName deployName : String)
  | k8sDeleteDeployment (nsName deployName : String)
  | k8sDeleteConfigMap (nsName mapName : String)
deriving DecidableEq, Repr

/-- API calls of `create_k8s_deployment`'s success path (lines 96-219). -/
def create_k8s_deployment_effects (nsName name : String) :
    List ContainerEffect :=
  [ContainerEffect.k8sCreateNamespace nsName,
   ContainerEffect.k8sCreateConfigMap nsName (name ++ "-config"),
   ContainerEffect.k8sCreateDeployment nsName name]

/-- API calls of `remove_container`'s success paths (lines 286-334):
`podNamespace`/`deploymentName` are read from the pod's metadata and
owner references; an invalid type raises `ValueError` (error envelope,
no calls). -/
def remove_container_effects (containerType : String) (k8sAvailable : Bool)
    (containerId podNamespace deploymentName : String) :
    List ContainerEffect :=
  if containerType = "docker" then
    [ContainerEffect.dockerStop containerId,
     ContainerEffect.dockerRemove containerId]
  else if containerType = "kubernetes" then
    if k8sAvailable then
      [ContainerEffect.k8sDeleteDeployment podNamespace deploymentName,
       ContainerEffect.k8sDeleteConfigMap podNamespace
         (deploymentName ++ "-config")]
    else []
  else []

/-! ### Management-API authentication: `require_api_key`
(`web_interface.py`, lines 24-31)

`api_key = request.headers.get('X-API-Key')`; the request is rejected
with 401 when `not api_key or api_key != os.getenv('WIREGUARD_API_KEY')`.
An absent header is `None` (falsy), an empty header is falsy, and Python
`!=` between a string and `None` is always `True`. -/

/-- Does the decorator reject the request with 401 Unauthorized?
`header` is the `X-API-Key` value (`none` = absent), `envKey` the
`WIREGUARD_API_KEY` environment value (`none` = unset). -/
def require_api_key : Option String → Option String → Bool
  | none, _ => true
  | some s, none => (s = "") || true
  | some s, some v => (s = "") || (s ≠ v)

/-! ### Concrete inputs used by counterexamples and witnesses -/

/-- Backends whose every create call succeeds. -/
def allOkBackends : Backends :=
  { deployAws := fun _ => Entry.success, deployGcp := fun _ => Entry.success,
    deployAzure := fun _ => Entry.success,
    createDocker := fun _ _ => Entry.success,
    createK8s := fun _ _ _ => Entry.success }

/-- Backends where exactly the AWS create fails. -/
def mixedBackends : Backends :=
  { deployAws := fun _ => Entry.failure, deployGcp := fun _ => Entry.success,
    deployAzure := fun _ => Entry.success,
    createDocker := fun _ _ => Entry.success,
    createK8s := fun _ _ _ => Entry.success }

/-- A cloud request with an unrecognized provider discriminator. -/
def reqUnknown : CloudReq :=
  { provider := "digitalocean" }

/-- A container request with an unrecognized platform discriminator. -/
def creqUnknown : ContainerReq :=
  { platform := "podman", config_path := "/c", name := "n", ns := none }

/-- A well-formed spec: two cloud requests (aws, gcp) and one docker
container request. -/
def specW : DeploymentSpec :=
  { cloud := [{ provider := "aws" }, { provider := "gcp" }],
    containers := [{ platform := "docker",
                     config_path := "/etc/wireguard/wg0.conf",
                     name := "wg-docker", ns := none }] }

/-! ### Lemmas about the telemetry loop -/

theorem lineRaises_empty : lineRaises "" = false := by decide

/-- One raising line anywhere in the dump makes the whole loop abort. -/
theorem collectTotals_raises :
    ∀ (lines : List String) (rx tx : Int),
      (∃ l ∈ lines, lineRaises l = true) → collectTotals lines rx tx = none := by
  intro lines
  induction lines with
  | nil =>
    intro rx tx h
    rcases h with ⟨l, hl, _⟩
    exact absurd hl (List.not_mem_nil l)
  | cons head rest ih =>
    intro rx tx h
    rcases h with ⟨l, hl, hr⟩
    rcases List.mem_cons.mp hl with hhead | htail
    · subst hhead
      have hne : l ≠ "" := by
        intro he
        rw [he, lineRaises_empty] at hr
        exact Bool.false_ne_true hr
      have hconj : lineHasPeerFields l = true ∧ lineParsesOk l = false := by
        simpa [lineRaises] using hr
      simp [collectTotals, hne, hconj.1, hconj.2]
    · have tail_none : ∀ rx' tx' : Int, collectTotals rest rx' tx' = none :=
        fun rx' tx' => ih rx' tx' ⟨l, htail, hr⟩
      by_cases hne : head = ""
      · simp [collectTotals, hne, tail_none]
      · by_cases hfields : lineHasPeerFields head
        · by_cases hok : lineParsesOk head
          · simp [collectTotals, hne, hfields, hok, tail_none]
          · simp [collectTotals, hne, hfields, hok]
        · simp [collectTotals, hne, hfields, tail_none]

/-- The bridge parser never aborts: it yields exactly one record per
8+-field line, whatever the numeric fields contain. -/
theorem bridgeParsePeers_length :
    ∀ lines : List String,
      (bridgeParsePeers lines).length = (lines.filter lineHasPeerFields).length := by
  intro lines
  induction lines with
  | nil => rfl
  | cons head rest ih =>
    by_cases h : lineHasPeerFields head
    · simp [bridgeParsePeers, List.filterMap_cons, List.filter_cons, h]
      simpa [bridgeParsePeers] using ih
    · simp [bridgeParsePeers, List.filterMap_cons, List.filter_cons, h]
      simpa [bridgeParsePeers] using ih

/-- Every single collection cycle leaves each counter at or above its
previous value: an aborted cycle leaves them unchanged; a completed rx
increment is non-negative (a negative total raises in `Counter.inc`
before mutating), likewise for tx. -/
theorem collect_metrics_le (dump : String) (c : Counters) :
    countersLe c (collect_metrics dump c) := by
  unfold collect_metrics
  cases htot : collectTotals (pySplit '\n' (pyStrip dump)) 0 0 with
  | none => exact ⟨le_refl _, le_refl _⟩
  | some p =>
    obtain ⟨trx, ttx⟩ := p
    by_cases h1 : trx < 0
    · simp only [h1, if_true]
      exact ⟨le_refl _, le_refl _⟩
    · by_cases h2 : ttx < 0
      · simp only [h1, h2, if_false, if_true]
        exact ⟨by simp; omega, by simp⟩
      · simp only [h1, h2, if_false]
        exact ⟨by simp; omega, by simp; omega⟩

theorem countersLe_trans {a b c : Counters}
    (h1 : countersLe a b) (h2 : countersLe b c) : countersLe a c :=
  ⟨le_trans h1.1 h2.1, le_trans h1.2 h2.2⟩

theorem runCycles_le :
    ∀ (dumps : List String) (c : Counters), countersLe c (runCycles dumps c) := by
  intro dumps
  induction dumps with
  | nil => intro c; exact ⟨le_refl _, le_refl _⟩
  | cons d rest ih =>
    intro c
    exact countersLe_trans (collect_metrics_le d c) (ih (collect_metrics d c))

theorem runCycles_append (pre ext : List String) (c : Counters) :
    runCycles (pre ++ ext) c = runCycles ext (runCycles pre c) := by
  simp [runCycles, List.foldl_append]

/-! ### Claim theorems: peer parsing and telemetry -/


/-- C3: the claim says the telemetry collector accumulates the 7th and
8th tab fields of each 8+-field line as its rx/tx byte totals, so the
example line should add rx 1024 and tx 2048.  Evaluating the code at that
failing input: the bridge parser does map fields 2/4/5/6/7/8 into one
record (kept as raw strings), but `collect_metrics` reads `parts[5]` and
`parts[6]` — the 6th and 7th fields — as rx/tx, and its per-line
`float(parts[4])` call raises on the allowed-IPs field `10.0.0.2/32`, so
on the example line the whole cycle aborts and the counters stay at 0
instead of gaining 1024/2048; with a float-parsable 5th field the cycle
adds 1699999999 (the 6th field, the handshake epoch) to rx and 1024 (the
7th field) to tx. -/
theorem C3_telemetry_misreads_dump_fields :
    get_server_status_peers exampleDumpLine =
      [{ public_key := "ABC123", endpoint := "10.0.0.5:51820",
         allowed_ips := "10.0.0.2/32", latest_handshake := "1699999999",
         transfer_rx := "1024", transfer_tx := "2048" }] ∧
    collect_metrics exampleDumpLine ⟨0, 0⟩ = ⟨0, 0⟩ ∧
    collect_metrics "wg0\tABC123\t(none)\tep\t0\t1699999999\t1024\t2048" ⟨0, 0⟩ =
      ⟨1699999999, 1024⟩ :=
  ⟨by decide, by decide, by decide⟩

/-- C4 counterexample: a dump whose first line has the non-numeric 6th
field `notanumber` (so `int(parts[5])` raises) and whose second line is
fully well formed.  The claim predicts the malformed field contributes 0
and the other line still completes; the code abandons the whole cycle,
accumulating nothing — the well-formed line alone would have contributed
(5, 10). -/
theorem C4_counterexample_bad_numeric_aborts_whole_cycle :
    collect_metrics
      "wg0\tK1\t(none)\tep\t0\tnotanumber\t10\t20\nwg0\tK2\t(none)\tep\t0\t5\t10\t20"
      ⟨0, 0⟩ = ⟨0, 0⟩ ∧
    collect_metrics "wg0\tK2\t(none)\tep\t0\t5\t10\t20" ⟨0, 0⟩ = ⟨5, 10⟩ :=
  ⟨by decide, by decide⟩

/-- C4 (amended): in `collect_metrics`, any 8+-field line on which a
numeric conversion raises (`int(parts[5])`, `int(parts[6])`, or
`float(parts[4])` for a non-`'0'` 5th field) aborts the entire collection
cycle through the broad `except`, leaving the counters unchanged — no
line of that dump contributes anything.  Only the bridge's
`get_server_status` parse is abort-free: it performs no numeric
conversion and still yields one record per 8+-field line of the same
dump. -/
theorem C4_cycle_abandoned_on_numeric_parse_failure
    (dump : String) (c : Counters)
    (h : ∃ l ∈ pySplit '\n' (pyStrip dump), lineRaises l = true) :
    collect_metrics dump c = c ∧
    (get_server_status_peers dump).length =
      ((pySplit '\n' (pyStrip dump)).filter lineHasPeerFields).length := by
  constructor
  · unfold collect_metrics
    rw [collectTotals_raises _ _ _ h]
  · exact bridgeParsePeers_length _

/-- C4 witness: the amended theorem applied to the concrete two-line
dump of the counterexample. -/
theorem C4_cycle_abandoned_witness :
    collect_metrics
      "wg0\tK1\t(none)\tep\t0\tnotanumber\t10\t20\nwg0\tK2\t(none)\tep\t0\t5\t10\t20"
      ⟨3, 4⟩ = ⟨3, 4⟩ ∧
    (get_server_status_peers
      "wg0\tK1\t(none)\tep\t0\tnotanumber\t10\t20\nwg0\tK2\t(none)\tep\t0\t5\t10\t20").length =
      ((pySplit '\n' (pyStrip
        "wg0\tK1\t(none)\tep\t0\tnotanumber\t10\t20\nwg0\tK2\t(none)\tep\t0\t5\t10\t20")).filter
          lineHasPeerFields).length :=
  C4_cycle_abandoned_on_numeric_parse_failure _ _ (by decide)

/-! ### Lemmas about the deployment loops -/

theorem cloudDispatch_known (b : Backends) (req : CloudReq)
    (h : req.provider = "aws" ∨ req.provider = "gcp" ∨ req.provider = "azure")
    (prev : Option Entry) :
    cloudDispatch b req prev = some (cloudEntry b req) := by
  rcases h with h | h | h <;> simp [cloudDispatch, cloudEntry, h]

theorem containerDispatch_known (b : Backends) (req : ContainerReq)
    (h : req.platform = "docker" ∨ req.platform = "kubernetes")
    (prev : Option Entry) :
    containerDispatch b req prev = some (containerEntry b req) := by
  rcases h with h | h <;> simp [containerDispatch, containerEntry, h]

theorem foldCloud_known (b : Backends) :
    ∀ (reqs : List CloudReq) (st : LoopState),
      (∀ r ∈ reqs,
        r.provider = "aws" ∨ r.provider = "gcp" ∨ r.provider = "azure") →
      ∃ ropt, foldReqs (stepCloud b) st reqs =
        some ⟨ropt, st.cloud ++ reqs.map (cloudEntry b), st.container⟩ := by
  intro reqs
  induction reqs with
  | nil =>
    intro st _
    exact ⟨st.result, by simp [foldReqs]⟩
  | cons r rest ih =>
    intro st h
    have hr := h r (List.mem_cons_self r rest)
    have hrest := fun x hx => h x (List.mem_cons_of_mem r hx)
    have hstep : stepCloud b st r =
        some ⟨some (cloudEntry b r), st.cloud ++ [cloudEntry b r], st.container⟩ := by
      simp [stepCloud, cloudDispatch_known b r hr]
    obtain ⟨ropt, hfold⟩ :=
      ih ⟨some (cloudEntry b r), st.cloud ++ [cloudEntry b r], st.container⟩ hrest
    refine ⟨ropt, ?_⟩
    calc foldReqs (stepCloud b) st (r :: rest)
        = foldReqs (stepCloud b)
            ⟨some (cloudEntry b r), st.cloud ++ [cloudEntry b r], st.container⟩
            rest := by simp [foldReqs, hstep]
      _ = some ⟨ropt, (st.cloud ++ [cloudEntry b r]) ++ rest.map (cloudEntry b),
            st.container⟩ := hfold
      _ = some ⟨ropt, st.cloud ++ (r :: rest).map (cloudEntry b), st.container⟩ := by
            simp

theorem foldContainer_known (b : Backends) :
    ∀ (reqs : List ContainerReq) (st : LoopState),
      (∀ r ∈ reqs, r.platform = "docker" ∨ r.platform = "kubernetes") →
      ∃ ropt, foldReqs (stepContainer b) st reqs =
        some ⟨ropt, st.cloud, st.container ++ reqs.map (containerEntry b)⟩ := by
  intro reqs
  induction reqs with
  | nil =>
    intro st _
    exact ⟨st.result, by simp [foldReqs]⟩
  | cons r rest ih =>
    intro st h
    have hr := h r (List.mem_cons_self r rest)
    have hrest := fun x hx => h x (List.mem_cons_of_mem r hx)
    have hstep : stepContainer b st r =
        some ⟨some (containerEntry b r), st.cloud,
          st.container ++ [containerEntry b r]⟩ := by
      simp [stepContainer, containerDispatch_known b r hr]
    obtain ⟨ropt, hfold⟩ :=
      ih ⟨some (containerEntry b r), st.cloud, st.container ++ [containerEntry b r]⟩
        hrest
    refine ⟨ropt, ?_⟩
    calc foldReqs (stepContainer b) st (r :: rest)
        = foldReqs (stepContainer b)
            ⟨some (containerEntry b r), st.cloud,
              st.container ++ [containerEntry b r]⟩ rest := by
            simp [foldReqs, hstep]
      _ = some ⟨ropt, st.cloud,
            (st.container ++ [containerEntry b r]) ++ rest.map (containerEntry b)⟩ :=
            hfold
      _ = some ⟨ropt, st.cloud, st.container ++ (r :: rest).map (containerEntry b)⟩ :=
            by simp

/-- Every result entry is either a `Failure` or a `Success`. -/
theorem failures_add_successes :
    ∀ l : List Entry, failures l + successes l = l.length := by
  intro l
  induction l with
  | nil => rfl
  | cons e rest ih =>
    cases e <;> simp [failures, successes, List.countP_cons] at ih ⊢ <;> omega

/-! ### Claim theorems: deployment orchestration -/

/-- C1 counterexample: a spec that loads and parses successfully (one
cloud request whose provider is `digitalocean`, no container requests)
against backends whose every create succeeds.  No request fails at the
backend-create level (no create is even called), yet
`deploy_infrastructure` returns the `{"status": "error"}` envelope — the
unmatched `if`-chain leaves the local `result` unbound and the `append`
raises — contradicting "envelope status 'error' only when the spec file
itself fails to load or parse" and the promised N+M-K success entries. -/
theorem C1_counterexample_unknown_provider :
    deploy_infrastructure allOkBackends
      (Except.ok { cloud := [{ provider := "digitalocean" }], containers := [] }) =
      DeployOutcome.err := by decide

/-- C1 (amended): for every deployment spec that loads and parses and in
which every cloud request's provider is one of aws/gcp/azure and every
container request's platform is docker or kubernetes,
`deploy_infrastructure` processes the requests in list order without
short-circuiting — the per-request lists are exactly the ordered maps of
the backend create calls over the two request lists — and returns the
success envelope; with K of the creates failing, the lists hold exactly
K `Failure` and N+M-K `Success` entries.  (The error envelope arises
when the spec fails to load or parse, and also when a request with an
unrecognized discriminator is processed first.) -/
theorem C1_deploy_independent_fanout (b : Backends) (spec : DeploymentSpec)
    (hc : ∀ r ∈ spec.cloud,
      r.provider = "aws" ∨ r.provider = "gcp" ∨ r.provider = "azure")
    (ht : ∀ r ∈ spec.containers,
      r.platform = "docker" ∨ r.platform = "kubernetes") :
    deploy_infrastructure b (Except.ok spec) =
      DeployOutcome.ok (spec.cloud.map (cloudEntry b))
        (spec.containers.map (containerEntry b)) ∧
    failures (spec.cloud.map (cloudEntry b) ++
        spec.containers.map (containerEntry b)) +
      successes (spec.cloud.map (cloudEntry b) ++
        spec.containers.map (containerEntry b)) =
      spec.cloud.length + spec.containers.length := by
  obtain ⟨r1, h1⟩ := foldCloud_known b spec.cloud ⟨none, [], []⟩ hc
  obtain ⟨r2, h2⟩ :=
    foldContainer_known b spec.containers
      ⟨r1, [] ++ spec.cloud.map (cloudEntry b), []⟩ ht
  have h1' : foldReqs (stepCloud b) ⟨none, [], []⟩ spec.cloud =
      some ⟨r1, spec.cloud.map (cloudEntry b), []⟩ := by simpa using h1
  have h2' : foldReqs (stepContainer b)
      ⟨r1, spec.cloud.map (cloudEntry b), []⟩ spec.containers =
      some ⟨r2, spec.cloud.map (cloudEntry b),
        spec.containers.map (containerEntry b)⟩ := by simpa using h2
  constructor
  · simp [deploy_infrastructure, h1', h2']
  · rw [failures_add_successes]
    simp

/-- C1 witness: the amended theorem at backends where exactly the AWS
create fails and a concrete aws/gcp/docker spec (N=2, M=1, K=1). -/
theorem C1_deploy_independent_fanout_witness :
    deploy_infrastructure mixedBackends (Except.ok specW) =
      DeployOutcome.ok (specW.cloud.map (cloudEntry mixedBackends))
        (specW.containers.map (containerEntry mixedBackends)) ∧
    failures (specW.cloud.map (cloudEntry mixedBackends) ++
        specW.containers.map (containerEntry mixedBackends)) +
      successes (specW.cloud.map (cloudEntry mixedBackends) ++
        specW.containers.map (containerEntry mixedBackends)) =
      specW.cloud.length + specW.containers.length :=
  C1_deploy_independent_fanout mixedBackends specW (by decide) (by decide)

/-- C9: a request with an unrecognized discriminator produces no fresh
result entry: if it is the first request processed, `deploy_infrastructure`
returns the error envelope (the Python local `result` is unbound at the
`append`); otherwise the loop step appends the previous request's
envelope again, misattributing the outcome. -/
theorem C9_unknown_discriminator_misattribution (b : Backends)
    (req : CloudReq) (creq : ContainerReq) (rest : List CloudReq)
    (cs : List ContainerReq) (crest : List ContainerReq) (st : LoopState)
    (e : Entry)
    (h1 : ¬(req.provider = "aws" ∨ req.provider = "gcp" ∨ req.provider = "azure"))
    (h2 : ¬(creq.platform = "docker" ∨ creq.platform = "kubernetes"))
    (h3 : st.result = some e) :
    deploy_infrastructure b (Except.ok ⟨req :: rest, cs⟩) = DeployOutcome.err ∧
    deploy_infrastructure b (Except.ok ⟨[], creq :: crest⟩) = DeployOutcome.err ∧
    stepCloud b st req = some ⟨some e, st.cloud ++ [e], st.container⟩ ∧
    stepContainer b st creq = some ⟨some e, st.cloud, st.container ++ [e]⟩ := by
  push_neg at h1 h2
  obtain ⟨ha, hg, hz⟩ := h1
  obtain ⟨hd, hk⟩ := h2
  have hcd : ∀ prev, cloudDispatch b req prev = prev := by
    intro prev; simp [cloudDispatch, ha, hg, hz]
  have hct : ∀ prev, containerDispatch b creq prev = prev := by
    intro prev; simp [containerDispatch, hd, hk]
  refine ⟨?_, ?_, ?_, ?_⟩
  · simp [deploy_infrastructure, foldReqs, stepCloud, hcd]
  · simp [deploy_infrastructure, foldReqs, stepContainer, hct]
  · simp [stepCloud, hcd, h3]
  · simp [stepContainer, hct, h3]

/-- C9 witness: the theorem at a `digitalocean` cloud request, a `podman`
container request, and a loop state whose previous envelope was a
success. -/
theorem C9_unknown_discriminator_witness :
    deploy_infrastructure allOkBackends
      (Except.ok ⟨[reqUnknown], []⟩) = DeployOutcome.err ∧
    deploy_infrastructure allOkBackends
      (Except.ok ⟨[], [creqUnknown]⟩) = DeployOutcome.err ∧
    stepCloud allOkBackends ⟨some Entry.success, [], []⟩ reqUnknown =
      some ⟨some Entry.success, [Entry.success], []⟩ ∧
    stepContainer allOkBackends ⟨some Entry.success, [], []⟩ creqUnknown =
      some ⟨some Entry.success, [], [Entry.success]⟩ :=
  C9_unknown_discriminator_misattribution allOkBackends reqUnknown creqUnknown
    [] [] [] ⟨some Entry.success, [], []⟩ Entry.success
    (by decide) (by decide) (by decide)

/-- C7: across any sequence of telemetry collection cycles in one
process lifetime, the accumulated rx/tx byte counters never decrease:
each cycle (completed, partially completed, or aborted) leaves each
counter at or above its previous value, any run of cycles does too, and
extending a run of cycles never lowers the counters; the model has no
reset operation, matching "reset only at process start". -/
theorem C7_bytes_counters_monotone :
    (∀ (dump : String) (c : Counters), countersLe c (collect_metrics dump c)) ∧
    (∀ (dumps : List String) (c : Counters), countersLe c (runCycles dumps c)) ∧
    (∀ (pre ext : List String) (c : Counters),
      countersLe (runCycles pre c) (runCycles (pre ++ ext) c)) := by
  refine ⟨collect_metrics_le, runCycles_le, ?_⟩
  intro pre ext c
  rw [runCycles_append]
  exact runCycles_le ext (runCycles pre c)

/-! ### Claim theorems: system status, CLI, API key -/

/-- C8: `get_system_status` always returns the error envelope, whatever
the cloud listings, container listing and tunnel-engine output are: the
metric globals (`ACTIVE_CONNECTIONS` first) are not bound at module
level in `wireguard_enterprise.py`, so the metrics block raises
`NameError` and the broad `except` discards the listings already
gathered; the snapshot branch is unreachable. -/
theorem C8_system_status_always_error
    (awsList gcpList azureList containerList : List String)
    (wireguardStatus : String) :
    get_system_status awsList gcpList azureList containerList wireguardStatus =
      StatusResult.errorEnvelope ∧
    resolvesInEnterprise "ACTIVE_CONNECTIONS" = false := by
  have hres : resolvesInEnterprise "ACTIVE_CONNECTIONS" = false := by decide
  exact ⟨by simp [get_system_status, hres], hres⟩

/-- C6 counterexample: `get_system_status` (here at empty backend
listings) returns the error envelope, yet the `status` CLI command
returns process exit code 0 — the claim requires a non-zero exit exactly
when the envelope status is `error`. -/
theorem C6_counterexample_status_error_exits_zero :
    get_system_status [] [] [] [] "" = StatusResult.errorEnvelope ∧
    handle_cli "status" none true true StatusResult.errorEnvelope
      DeployOutcome.err = 0 :=
  ⟨by decide, by decide⟩

/-- C6 (amended): the `deploy` command's exit status is non-zero exactly
when the returned envelope's status is not `success` (and `deploy`
without `--config` exits 1); the `status` command always exits 0, even
when `get_system_status` returns an error envelope; `start`/`stop` exit
0 exactly when the boolean service operation reports success. -/
theorem C6_exit_code_per_command (cfgPath : String) (cfg : Option String)
    (startOk stopOk : Bool) (sr : StatusResult) (d : DeployOutcome) :
    handle_cli "status" cfg startOk stopOk sr d = 0 ∧
    (handle_cli "deploy" (some cfgPath) startOk stopOk sr d ≠ 0 ↔
      outcomeStatus d ≠ "success") ∧
    handle_cli "deploy" none startOk stopOk sr d = 1 ∧
    handle_cli "start" cfg startOk stopOk sr d = (if startOk then 0 else 1) ∧
    handle_cli "stop" cfg startOk stopOk sr d = (if stopOk then 0 else 1) := by
  refine ⟨by rfl, ?_, by rfl, by rfl, by rfl⟩
  cases d <;> simp [handle_cli, outcomeStatus]

/-- C10: the management-API gate responds 401 Unauthorized exactly when
the `X-API-Key` header is absent, empty, or unequal to the
`WIREGUARD_API_KEY` environment value; in particular with the variable
unset every request is rejected, whatever header is supplied. -/
theorem C10_api_key_gate :
    (∀ (h env : Option String),
      require_api_key h env = true ↔
        (h = none ∨ h = some "" ∨ h ≠ env)) ∧
    (∀ h : Option String, require_api_key h none = true) := by
  constructor
  · intro h env
    cases h with
    | none => cases env <;> simp [require_api_key]
    | some s =>
      cases env with
      | none => simp [require_api_key]
      | some v =>
        by_cases hs : s = ""
        · subst hs; simp [require_api_key]
        · simp [require_api_key, hs]
  · intro h
    cases h <;> simp [require_api_key]

/-! ### Lemmas about the polling loops -/

/-- A condition that never holds makes the loop exhaust its fuel,
checking once per unit of fuel. -/
theorem pollFrom_never (ready : Nat → Bool) (h : ∀ k, ready k = false) :
    ∀ (fuel k0 : Nat), pollFrom ready k0 fuel = k0 + fuel := by
  intro fuel
  induction fuel with
  | zero => intro k0; simp [pollFrom]
  | succ n ih =>
    intro k0
    rw [pollFrom, h k0]
    simp only [Bool.false_eq_true, if_false]
    rw [ih (k0 + 1)]
    omega

/-- A condition first observed true on the check with 0-based index
`d < fuel` stops the loop right there. -/
theorem pollFrom_first (ready : Nat → Bool) :
    ∀ (fuel k0 d : Nat), d < fuel → ready (k0 + d) = true →
      (∀ e, e < d → ready (k0 + e) = false) →
      pollFrom ready k0 fuel = k0 + d + 1 := by
  intro fuel
  induction fuel with
  | zero => intro k0 d hd; omega
  | succ n ih =>
    intro k0 d hd hr hmin
    cases d with
    | zero =>
      rw [pollFrom]
      simp only [Nat.add_zero] at hr
      rw [hr]
      simp
    | succ d' =>
      have h0 : ready k0 = false := by
        have := hmin 0 (Nat.succ_pos d')
        simpa using this
      rw [pollFrom, h0]
      simp only [Bool.false_eq_true, if_false]
      have hr' : ready (k0 + 1 + d') = true := by
        have : k0 + 1 + d' = k0 + (d' + 1) := by omega
        rw [this]; exact hr
      have hmin' : ∀ e, e < d' → ready (k0 + 1 + e) = false := by
        intro e he
        have : k0 + 1 + e = k0 + (e + 1) := by omega
        rw [this]
        exact hmin (e + 1) (by omega)
      rw [ih (k0 + 1) d' (by omega) hr' hmin']
      omega

/-! ### Claim theorems: readiness polling -/

/-- C2 counterexample: the Kubernetes create with a deployment that never
reports its desired replica count ready.  The poller does invoke the
status check exactly 60 times, but `create_k8s_deployment` then returns
the success envelope — not the timeout failure the claim requires — since
the code has no post-loop readiness check. -/
theorem C2_counterexample_k8s_timeout_reports_success :
    create_k8s_deployment true true false (fun _ => false) =
      (CreateStatus.success, 60) := by decide

/-- C2 (amended): a never-satisfied condition is checked exactly
`maxAttempts` times at both call sites (and by the generic loop for any
bound), and a condition first satisfied on attempt `i ≤ maxAttempts`
stops polling at attempt `i` with the create reporting success; on
timeout the Docker create reports the failure envelope, but the
Kubernetes create reports success anyway. -/
theorem C2_poll_counts_and_outcomes
    (m : Nat) (readyA : Nat → Bool) (hA : ∀ k, readyA k = false)
    (statusA : Nat → String) (hSA : ∀ k, statusA k ≠ "running")
    (statusB : Nat → String) (jB : Nat) (hj : jB < 30)
    (hB1 : statusB jB = "running")
    (hB2 : ∀ e, e < jB → statusB e ≠ "running")
    (readyB : Nat → Bool) (iB : Nat) (hi : iB < 60)
    (hi1 : readyB iB = true) (hi2 : ∀ e, e < iB → readyB e = false) :
    pollFrom readyA 0 m = m ∧
    create_docker_container true false statusA = (CreateStatus.error, 30) ∧
    create_docker_container true false statusB = (CreateStatus.success, jB + 1) ∧
    create_k8s_deployment true true false readyA = (CreateStatus.success, 60) ∧
    create_k8s_deployment true true false readyB = (CreateStatus.success, iB + 1) := by
  have hA30 : ∀ k, (decide (statusA k = "running")) = false := by
    intro k; simp [hSA k]
  have hB2' : ∀ e, e < jB → (decide (statusB e = "running")) = false := by
    intro e he; simp [hB2 e he]
  refine ⟨?_, ?_, ?_, ?_, ?_⟩
  · have := pollFrom_never readyA hA m 0
    simpa using this
  · have hn : pollFrom (fun k => statusA k = "running") 0 30 = 30 := by
      have := pollFrom_never (fun k => decide (statusA k = "running")) hA30 30 0
      simpa using this
    simp [create_docker_container, hn, hSA 29]
  · have hn : pollFrom (fun k => statusB k = "running") 0 30 = jB + 1 := by
      have := pollFrom_first (fun k => decide (statusB k = "running")) 30 0 jB hj
        (by simpa using hB1) (by simpa using hB2')
      simpa using this
    simp [create_docker_container, hn, hB1]
  · have hn : pollFrom readyA 0 60 = 60 := by
      have := pollFrom_never readyA hA 60 0
      simpa using this
    simp [create_k8s_deployment, hn]
  · have hn : pollFrom readyB 0 60 = iB + 1 := by
      have := pollFrom_first readyB 60 0 iB hi (by simpa using hi1)
        (by simpa using hi2)
      simpa using this
    simp [create_k8s_deployment, hn]

/-- C2 witness: the amended theorem at concrete polling functions — a
container that never runs, one first running on the 3rd check, a
deployment never ready, and one first ready on the 6th check. -/
theorem C2_poll_counts_witness :
    pollFrom (fun _ => false) 0 7 = 7 ∧
    create_docker_container true false (fun _ => "created") =
      (CreateStatus.error, 30) ∧
    create_docker_container true false
      (fun k => if k = 2 then "running" else "created") =
      (CreateStatus.success, 3) ∧
    create_k8s_deployment true true false (fun _ => false) =
      (CreateStatus.success, 60) ∧
    create_k8s_deployment true true false (fun k => decide (k = 5)) =
      (CreateStatus.success, 6) :=
  C2_poll_counts_and_outcomes 7 (fun _ => false) (fun _ => rfl)
    (fun _ => "created")
    (by intro k; show ("created" : String) ≠ "running"; decide)
    (fun k => if k = 2 then "running" else "created") 2 (by decide)
    (by decide) (by decide)
    (fun k => decide (k = 5)) 5 (by decide) (by decide) (by decide)

/-! ### Claim theorems: auxiliary-resource lifecycle -/

/-- C5 counterexample: `deploy_aws` provisions a security group as part
of the unit (and opens UDP 51820 on it), but `terminate_instance('aws',
id)` issues only the instance termination call — no security-group
deletion of any kind — so the auxiliary resource is not released in the
same call, contrary to the claim. -/
theorem C5_counterexample_aws_terminate_leaks_security_group :
    (deploy_aws_effects "vpn1").any isSecurityGroupCreate = true ∧
    terminate_instance_effects "aws" "i-0123" =
      [CloudEffect.terminateInstances "i-0123"] ∧
    (terminate_instance_effects "aws" "i-0123").any isSecurityGroupRelease =
      false :=
  ⟨by decide, by decide, by decide⟩

/-- C5 (amended): of the two auxiliary-resource owners, only the
Kubernetes side keeps the contract: `create_k8s_deployment` creates the
`<name>-config` ConfigMap and `remove_container('kubernetes')` deletes
the deployment and that ConfigMap in the same call; the AWS side does
not — `terminate_instance('aws', id)` issues exactly the instance
termination call and never deletes the security group `deploy_aws`
created. -/
theorem C5_auxiliary_resource_release
    (nsName name deploymentName cid iid : String) :
    ContainerEffect.k8sCreateConfigMap nsName (name ++ "-config") ∈
      create_k8s_deployment_effects nsName name ∧
    remove_container_effects "kubernetes" true cid nsName deploymentName =
      [ContainerEffect.k8sDeleteDeployment nsName deploymentName,
       ContainerEffect.k8sDeleteConfigMap nsName
         (deploymentName ++ "-config")] ∧
    terminate_instance_effects "aws" iid =
      [CloudEffect.terminateInstances iid] ∧
    (terminate_instance_effects "aws" iid).any isSecurityGroupRelease = false ∧
    (deploy_aws_effects name).any isSecurityGroupCreate = true := by
  refine ⟨?_, ?_, ?_, ?_, ?_⟩
  · simp [create_k8s_deployment_effects]
  · rfl
  · rfl
  · rfl
  · rfl

end WGEnt
